import Mathlib

/-!
Verification development for the `ec_prv_url_shortener` web service.

The request router, startup sequence, `NotFoundHandler` and thread-count
logic are embedded from `src/src/web_server.cc`.  The slug codec
(`url_shortening.h`) and the mapping store are not part of the source
snapshot; they are modelled from the specification (each such definition
carries a doc comment starting with `Modelled from the spec:`).

Strings from the C++ code (`std::string`, `std::string_view`) are embedded
as `List Char`; 64-bit machine integers as `Nat` with explicit reduction
modulo `2 ^ 64`.
-/

namespace UrlShortener

/-- HTTP methods, embedding `proxygen::HTTPMethod` (the subset of the
enumeration relevant to the router: the code only ever compares against
`GET`). -/
inductive HTTPMethod
  | GET
  | POST
  | PUT
  | DELETE
  | HEAD
  | OPTIONS
deriving DecidableEq, Repr

/-- The three handler classes the factory in `web_server.cc` can construct:
`NotFoundHandler`, `web::StaticHandler` and
`web::UrlShortenerApiRequestHandler`. -/
inductive RouteHandler
  | notFoundHandler
  | staticHandler
  | urlShortenerApiHandler
deriving DecidableEq, Repr

/-- The reserved static-asset route, `"/static/"` in `web_server.cc`. -/
def static_route : List Char := "/static/".data

/-- The service root path, `"/"` in `web_server.cc`. -/
def root_route : List Char := "/".data

/-- Slug alphabet test.  Modelled from the spec: §4.2 fixes a URL-safe
alphabet "e.g., base62"; we take base62, i.e. ASCII letters and digits. -/
def is_slug_char (c : Char) : Bool := c.isAlphanum

/-- Maximum slug length.  Modelled from the spec: §3 bounds slug length
"e.g., ≤ 12 characters"; we fix the bound at 12. -/
def max_slug_len : Nat := 12

/-- Modelled from the spec: `parse_out_request_str` (declared in
`url_shortening.h`, not part of the source snapshot).  Per §4.2, `parse`
extracts the path segment following the service root and returns no
candidate (here: the empty list) for paths that do not match the slug
shape — empty, wrong alphabet, wrong length, or one of the reserved
routes (the root path and the static-asset route, both of which fail the
shape test: the root leaves an empty segment and a static path's segment
contains a second slash, which is outside the slug alphabet). -/
def parse_out_request_str (p : List Char) : List Char :=
  match p with
  | '/' :: rest =>
    if 0 < rest.length ∧ rest.length ≤ max_slug_len ∧ rest.all is_slug_char then rest
    else []
  | _ => []

/-- Embeds `MyRequestHandlerFactory::onRequest` (`web_server.cc` lines
60–75): the routing decision table.  Note that the first branch, although
commented "serve home page" in the source, constructs a
`NotFoundHandler` (the home-page handler is a `TODO` in the code). -/
def onRequest (path : List Char) (method : HTTPMethod) : RouteHandler :=
  if path = root_route ∧ method = HTTPMethod.GET then
    RouteHandler.notFoundHandler
  else if static_route.isPrefixOf path ∧ method = HTTPMethod.GET then
    RouteHandler.staticHandler
  else if 0 < (parse_out_request_str path).length then
    RouteHandler.urlShortenerApiHandler
  else
    RouteHandler.notFoundHandler

/-- An HTTP request's routed view: path and method, as consumed by the
handlers. -/
structure HTTPMessage where
  path : List Char
  method : HTTPMethod
deriving DecidableEq, Repr

/-- An HTTP response as produced by `proxygen::ResponseBuilder`: status
code, reason phrase, optional body, and whether the message was
finalised (`sendWithEOM`). -/
structure HTTPResponse where
  status : Nat
  reason : List Char
  body : Option (List Char)
  eom : Bool
deriving DecidableEq, Repr

/-- The request-handler callbacks delivered by the transport, embedding
the `proxygen::RequestHandler` interface events the handler overrides. -/
inductive HandlerEvent
  | onRequest (msg : HTTPMessage)
  | onBody (chunk : List Char)
  | onUpgrade
  | onEOM
deriving DecidableEq, Repr

/-- Embeds `NotFoundHandler` (`web_server.cc` lines 35–50): the responses
emitted on each callback.  `onRequest` immediately sends status 404 with
reason "Not Found" and no body via `sendWithEOM`; every other callback
is a no-op. -/
def NotFoundHandler.handleEvent : HandlerEvent → List HTTPResponse
  | HandlerEvent.onRequest _ => [⟨404, "Not Found".data, none, true⟩]
  | _ => []

/-- Hexadecimal digit test for the key secret. -/
def is_hex_digit (c : Char) : Bool :=
  c.isDigit || ('a' ≤ c && c ≤ 'f') || ('A' ≤ c && c ≤ 'F')

/-- Value of a hexadecimal digit. -/
def hex_val (c : Char) : Nat :=
  if c.isDigit then c.toNat - '0'.toNat
  else if 'a' ≤ c && c ≤ 'f' then c.toNat - 'a'.toNat + 10
  else if 'A' ≤ c && c ≤ 'F' then c.toNat - 'A'.toNat + 10
  else 0

/-- Modelled from the spec: `create_highwayhash_key` (declared in
`url_shortening.h`, not part of the source snapshot).  Per §4.1 the
secret string "must decode to exactly the key's fixed width; any other
length ... is a fatal startup error"; the key is fixed at 256 bits (§3,
`app_config.h`: four `uint64_t` words).  We model the secret as a
64-hex-digit string decoded into four 64-bit words; any other input
yields no key. -/
def create_highwayhash_key (s : List Char) : Option (List Nat) :=
  if s.length = 64 ∧ s.all is_hex_digit then
    some ((List.range 4).map
      (fun w => ((s.drop (16 * w)).take 16).foldl
        (fun a c => (a * 16 + hex_val c) % 2 ^ 64) 0))
  else none

/-- Embeds the thread-count logic of `main` (`web_server.cc` lines 93–96):
a configured value `<= 0` is replaced by the number of online cores. -/
def effective_threads (flag_threads : Int) (ncores : Nat) : Int :=
  if flag_threads ≤ 0 then (ncores : Int) else flag_threads

/-- Outcome of the startup sequence of `main`, up to the point where the
server binds its ports: either the process dies before binding (a failed
`CHECK` aborts; a missing or malformed key is fatal), or it reaches
`server.bind` holding the decoded key and the thread-pool size. -/
inductive MainResult
  | fatal_before_bind
  | bound_and_serving (key : List Nat) (threads : Int)
deriving DecidableEq, Repr

/-- Embeds the startup sequence of `main` (`web_server.cc` lines 81–126):
compute the effective thread count (`CHECK(FLAGS_threads > 0)` aborts if
it is not positive), read the `EC_PRV_URL_SHORTENER__HIGHWAYHASH_KEY`
environment variable (`CHECK` aborts when it is absent), decode it
(fatal when malformed, per §4.1 — the decoder itself is modelled from
the spec, see `create_highwayhash_key`), and only then construct the
server and bind. -/
def main_startup (key_env : Option (List Char)) (flag_threads : Int) (ncores : Nat) :
    MainResult :=
  let t := effective_threads flag_threads ncores
  if t ≤ 0 then MainResult.fatal_before_bind
  else
    match key_env with
    | none => MainResult.fatal_before_bind
    | some s =>
      match create_highwayhash_key s with
      | none => MainResult.fatal_before_bind
      | some k => MainResult.bound_and_serving k t

theorem parse_root_eq_nil : parse_out_request_str root_route = [] := by decide

theorem parse_ne_nil_not_root {p : List Char} (h : parse_out_request_str p ≠ []) :
    p ≠ root_route := by
  intro hp
  rw [hp, parse_root_eq_nil] at h
  exact h rfl

theorem parse_static_eq_nil {p : List Char} (h : static_route.isPrefixOf p = true) :
    parse_out_request_str p = [] := by
  obtain ⟨t, ht⟩ := List.isPrefixOf_iff_prefix.mp h
  rw [← ht]
  show parse_out_request_str ('/' :: ("static/".data ++ t)) = []
  simp only [parse_out_request_str]
  rw [if_neg]
  rintro ⟨-, -, h3⟩
  have hfalse : "static/".data.all is_slug_char = false := by decide
  rw [List.all_append, hfalse, Bool.false_and] at h3
  exact Bool.noConfusion h3

theorem parse_ne_nil_not_static {p : List Char} (h : parse_out_request_str p ≠ []) :
    static_route.isPrefixOf p = false := by
  cases hx : static_route.isPrefixOf p
  · rfl
  · exact absurd (parse_static_eq_nil hx) h

theorem onRequest_of_parse_ne_nil {p : List Char} {m : HTTPMethod}
    (h : parse_out_request_str p ≠ []) :
    onRequest p m = RouteHandler.urlShortenerApiHandler := by
  have hroot := parse_ne_nil_not_root h
  have hstat := parse_ne_nil_not_static h
  unfold onRequest
  rw [if_neg, if_neg, if_pos]
  · exact List.length_pos.mpr h
  · rintro ⟨hp, -⟩
    rw [hstat] at hp
    exact Bool.noConfusion hp
  · rintro ⟨hp, -⟩
    exact hroot hp

theorem onRequest_not_get {p : List Char} {m : HTTPMethod} (h : m ≠ HTTPMethod.GET) :
    onRequest p m =
      (if 0 < (parse_out_request_str p).length then RouteHandler.urlShortenerApiHandler
       else RouteHandler.notFoundHandler) := by
  unfold onRequest
  rw [if_neg, if_neg]
  · rintro ⟨-, hm⟩; exact h hm
  · rintro ⟨-, hm⟩; exact h hm

theorem onRequest_not_found {p : List Char} {m : HTTPMethod}
    (hparse : parse_out_request_str p = [])
    (hns : ¬(m = HTTPMethod.GET ∧ static_route.isPrefixOf p = true)) :
    onRequest p m = RouteHandler.notFoundHandler := by
  unfold onRequest
  by_cases h1 : p = root_route ∧ m = HTTPMethod.GET
  · rw [if_pos h1]
  · rw [if_neg h1, if_neg, if_neg]
    · rw [hparse]
      exact fun hx => absurd hx (by simp)
    · rintro ⟨hp, hm⟩
      exact hns ⟨hm, hp⟩

/-- A stored shortened-URL record (spec §3): unique slug, the original
long URL, and an immutable creation timestamp. -/
structure ShortUrlRecord where
  slug : List Char
  long_url : List Char
  created_at : Nat
deriving DecidableEq, Repr

/-- The mapping store's state: the sequence of committed records, most
recent first.  The store (`db::ShortenedUrlsDatabase`) is not part of
the source snapshot; it is modelled from spec §4.3. -/
abbrev Store := List ShortUrlRecord

/-- Modelled from the spec: `lookup(slug) -> Option<long_url>` (§4.3),
the read-only lookup of the record committed for a slug. -/
def lookup : Store → List Char → Option (List Char)
  | [], _ => none
  | r :: rest, q => if r.slug = q then some r.long_url else lookup rest q

/-- The store's distinct error kind for keyspace exhaustion (§7):
collision-resolution attempts exceeded. -/
inductive StoreError
  | keyspace_exhausted
deriving DecidableEq, Repr

/-- Modelled from the spec: the "small maximum number of attempts"
bounding collision resolution (§4.3); we fix it at 16. -/
def max_collision_attempts : Nat := 16

/-- Modelled from the spec: the attempt loop of `create_or_get` (§4.3),
parameterized over the candidate-derivation function `cand` (the spec's
test seam for forcing collisions).  At attempt `i`: if no record exists
for `cand i`, insert and return it; if a record exists with the same
long URL, return it unchanged (idempotent re-shorten); otherwise retry
with the incremented collision counter.  `fuel` is the number of
remaining attempts; running out is the fatal keyspace-exhaustion
error. -/
def create_or_get_from (cand : Nat → List Char) (u : List Char) (now : Nat) (s : Store) :
    Nat → Nat → Except StoreError (List Char × Store)
  | _, 0 => Except.error StoreError.keyspace_exhausted
  | i, fuel + 1 =>
    match lookup s (cand i) with
    | none => Except.ok (cand i, ⟨cand i, u, now⟩ :: s)
    | some v =>
      if v = u then Except.ok (cand i, s)
      else create_or_get_from cand u now s (i + 1) fuel

/-- Modelled from the spec: `create_or_get` with an explicit candidate
function (the test seam), starting at collision counter 0 with the full
attempt budget. -/
def create_or_get_with (cand : Nat → List Char) (u : List Char) (now : Nat) (s : Store) :
    Except StoreError (List Char × Store) :=
  create_or_get_from cand u now s 0 max_collision_attempts

/-- Modelled from the spec: the keyed hash (§4.2; HighwayHash in the
code, whose implementation is external).  Abstracted to a deterministic
64-bit mixing fold over the input bytes, seeded from the four key
words. -/
def keyed_hash (key : List Nat) (data : List Char) : Nat :=
  data.foldl (fun a c => (a * 1099511628211 + c.toNat + 1) % 2 ^ 64)
    (key.foldl (fun a w => (a * 31 + w + 1) % 2 ^ 64) 14695981039346656037)

/-- The base62 slug alphabet (§4.2 "e.g., base62"). -/
def base62_alphabet : List Char :=
  "0123456789ABCDEFGHIJKLMNOPQRSTUVWXYZabcdefghijklmnopqrstuvwxyz".data

/-- Modelled from the spec: the fixed size of the digest slice encoded
into the slug (§4.2 "a fixed-size prefix of the digest", §3 bounded
length); we fix six base62 digits, matching the spec's example slug
`"k3Xa9B"`. -/
def slug_digits : Nat := 6

def encode62_aux : Nat → Nat → List Char
  | 0, _ => []
  | d + 1, v => base62_alphabet.getD (v % 62) '0' :: encode62_aux d (v / 62)

/-- Modelled from the spec: base62 encoding of the digest slice into a
fixed-length slug (§4.2). -/
def encode62 (v : Nat) : List Char := encode62_aux slug_digits v

/-- Modelled from the spec: the collision counter appended to the hash
input on re-derivation (§4.3); attempt 0 is the plain derivation. -/
def counter_chars : Nat → List Char
  | 0 => []
  | n + 1 => Nat.toDigits 10 (n + 1)

/-- Modelled from the spec: URL canonicalization (§3, §4.2).  The spec
leaves the exact rule open (§9) beyond treating fragment-only
differences as equal; we strip a `#`-fragment and nothing else. -/
def canonicalize (u : List Char) : List Char := u.takeWhile (fun c => c != '#')

/-- Modelled from the spec: the candidate slug for attempt `i` —
keyed hash of the canonical bytes plus the collision counter, base62
encoded (§4.2, §4.3). -/
def candidate_slug (k : List Nat) (u : List Char) (i : Nat) : List Char :=
  encode62 (keyed_hash k (canonicalize u ++ counter_chars i))

/-- Modelled from the spec: `derive(long_url, key) -> slug` (§4.2). -/
def derive (u : List Char) (k : List Nat) : List Char := candidate_slug k u 0

/-- Modelled from the spec: `create_or_get(long_url, key)` (§4.3),
instantiating the attempt loop with the real derivation. -/
def create_or_get (u : List Char) (k : List Nat) (now : Nat) (s : Store) :
    Except StoreError (List Char × Store) :=
  create_or_get_with (candidate_slug k u) u now s

/-- Number of records in the store for a given long URL. -/
def count_url (s : Store) (u : List Char) : Nat :=
  s.countP (fun r => decide (r.long_url = u))

theorem create_or_get_from_shape (cand : Nat → List Char) (u : List Char) (now : Nat)
    (s : Store) (slug : List Char) (s2 : Store) :
    ∀ (fuel i : Nat), create_or_get_from cand u now s i fuel = Except.ok (slug, s2) →
      (s2 = s ∧ lookup s slug = some u) ∨
      (s2 = ⟨slug, u, now⟩ :: s ∧ lookup s slug = none) := by
  intro fuel
  induction fuel with
  | zero =>
    intro i h
    simp only [create_or_get_from] at h
    exact Except.noConfusion h
  | succ fuel ih =>
    intro i h
    simp only [create_or_get_from] at h
    cases hl : lookup s (cand i) with
    | none =>
      simp only [hl, Except.ok.injEq, Prod.mk.injEq] at h
      obtain ⟨h1, h2⟩ := h
      subst h1
      subst h2
      exact Or.inr ⟨rfl, hl⟩
    | some v =>
      simp only [hl] at h
      by_cases hv : v = u
      · rw [if_pos hv] at h
        simp only [Except.ok.injEq, Prod.mk.injEq] at h
        obtain ⟨h1, h2⟩ := h
        subst h1
        subst h2
        exact Or.inl ⟨rfl, hv ▸ hl⟩
      · rw [if_neg hv] at h
        exact ih (i + 1) h

theorem lookup_insert_self (s : Store) (slug u : List Char) (now : Nat) :
    lookup (⟨slug, u, now⟩ :: s) slug = some u := by
  simp [lookup]

theorem create_or_get_from_round_trip (cand : Nat → List Char) (u : List Char) (now : Nat)
    (s : Store) (slug : List Char) (s2 : Store) (fuel i : Nat)
    (h : create_or_get_from cand u now s i fuel = Except.ok (slug, s2)) :
    lookup s2 slug = some u := by
  rcases create_or_get_from_shape cand u now s slug s2 fuel i h with ⟨h1, h2⟩ | ⟨h1, _⟩
  · rw [h1]
    exact h2
  · rw [h1]
    exact lookup_insert_self s slug u now

theorem create_or_get_from_preserves (cand : Nat → List Char) (u : List Char) (now : Nat)
    (s : Store) (slug : List Char) (s2 : Store) (fuel i : Nat)
    (h : create_or_get_from cand u now s i fuel = Except.ok (slug, s2))
    (q v : List Char) (hq : lookup s q = some v) :
    lookup s2 q = some v := by
  rcases create_or_get_from_shape cand u now s slug s2 fuel i h with ⟨h1, _⟩ | ⟨h1, hnone⟩
  · rw [h1]
    exact hq
  · have hne : slug ≠ q := by
      intro he
      rw [he, hq] at hnone
      exact Option.noConfusion hnone
    rw [h1]
    show (if slug = q then some u else lookup s q) = some v
    rw [if_neg hne]
    exact hq

theorem create_or_get_from_idem (cand : Nat → List Char) (u : List Char) (now now2 : Nat)
    (s : Store) :
    ∀ (fuel i : Nat) (slug : List Char) (s2 : Store),
      create_or_get_from cand u now s i fuel = Except.ok (slug, s2) →
      create_or_get_from cand u now2 s2 i fuel = Except.ok (slug, s2) := by
  intro fuel
  induction fuel with
  | zero =>
    intro i slug s2 h
    simp only [create_or_get_from] at h
    exact Except.noConfusion h
  | succ fuel ih =>
    intro i slug s2 h
    simp only [create_or_get_from] at h ⊢
    cases hl : lookup s (cand i) with
    | none =>
      simp only [hl, Except.ok.injEq, Prod.mk.injEq] at h
      obtain ⟨h1, h2⟩ := h
      subst h1
      subst h2
      simp only [lookup_insert_self]
      simp
    | some v =>
      simp only [hl] at h
      by_cases hv : v = u
      · rw [if_pos hv] at h
        simp only [Except.ok.injEq, Prod.mk.injEq] at h
        obtain ⟨h1, h2⟩ := h
        subst h1
        subst h2
        simp only [hl, if_pos hv]
      · rw [if_neg hv] at h
        rcases create_or_get_from_shape cand u now s slug s2 fuel (i + 1) h
          with ⟨hs2, _⟩ | ⟨hs2, hnone⟩
        · subst hs2
          simp only [hl, if_neg hv]
          exact ih (i + 1) slug _ h
        · have hne : slug ≠ cand i := by
            intro he
            rw [← he] at hl
            rw [hl] at hnone
            exact Option.noConfusion hnone
          have hlv : lookup s2 (cand i) = some v := by
            rw [hs2]
            show (if slug = cand i then some u else lookup s (cand i)) = some v
            rw [if_neg hne]
            exact hl
          simp only [hlv, if_neg hv]
          exact ih (i + 1) slug s2 h

theorem lookup_some_count_pos (u : List Char) :
    ∀ (s : Store) (q : List Char), lookup s q = some u → 0 < count_url s u := by
  intro s
  induction s with
  | nil =>
    intro q h
    exact Option.noConfusion h
  | cons r rest ih =>
    intro q h
    show 0 < List.countP _ (r :: rest)
    rw [List.countP_cons]
    by_cases hr : r.slug = q
    · have hu : r.long_url = u := by
        have : (if r.slug = q then some r.long_url else lookup rest q) = some u := h
        rw [if_pos hr] at this
        exact Option.some.inj this
      simp [hu]
    · have : (if r.slug = q then some r.long_url else lookup rest q) = some u := h
      rw [if_neg hr] at this
      have hpos := ih q this
      unfold count_url at hpos
      omega

theorem count_url_insert_self (s : Store) (slug u : List Char) (now : Nat) :
    count_url (⟨slug, u, now⟩ :: s) u = count_url s u + 1 := by
  unfold count_url
  rw [List.countP_cons]
  simp

theorem create_or_get_from_exhaust (cand : Nat → List Char) (u : List Char) (now : Nat)
    (s : Store) :
    ∀ (fuel i : Nat),
      (∀ j, i ≤ j → j < i + fuel → ∃ v, lookup s (cand j) = some v ∧ v ≠ u) →
      create_or_get_from cand u now s i fuel =
        Except.error StoreError.keyspace_exhausted := by
  intro fuel
  induction fuel with
  | zero =>
    intro i _
    simp only [create_or_get_from]
  | succ fuel ih =>
    intro i h
    obtain ⟨v, hv, hvu⟩ := h i (Nat.le_refl i) (by omega)
    simp only [create_or_get_from, hv, if_neg hvu]
    exact ih (i + 1) (fun j hj1 hj2 => h j (by omega) (by omega))

/-- C4: collision safety.  First part: for two distinct long URLs whose
initial candidate slugs collide (forced through the candidate-function
test seam), running `create_or_get` for the first and then — under the
at-most-one-writer guarantee, i.e. with the operations serialized — for
the second leaves both independently resolvable by `lookup` to their own
`long_url`, never to each other's.  Second part: when every candidate in
the attempt budget is occupied by a different URL, exceeding the bound
is reported as the distinct `keyspace_exhausted` error, not silently
absorbed. -/
theorem C4_collision_safety :
    (∀ (cand1 cand2 : Nat → List Char) (u1 u2 : List Char) (now1 now2 : Nat)
        (s s1 s2 : Store) (slug1 slug2 : List Char),
      u1 ≠ u2 → cand1 0 = cand2 0 →
      create_or_get_with cand1 u1 now1 s = Except.ok (slug1, s1) →
      create_or_get_with cand2 u2 now2 s1 = Except.ok (slug2, s2) →
      lookup s2 slug1 = some u1 ∧ lookup s2 slug2 = some u2 ∧ slug1 ≠ slug2) ∧
    (∀ (cand : Nat → List Char) (u : List Char) (now : Nat) (s : Store),
      (∀ i, i < max_collision_attempts → ∃ v, lookup s (cand i) = some v ∧ v ≠ u) →
      create_or_get_with cand u now s = Except.error StoreError.keyspace_exhausted) := by
  constructor
  · intro cand1 cand2 u1 u2 now1 now2 s s1 s2 slug1 slug2 hne _ h1 h2
    unfold create_or_get_with at h1 h2
    have hl1 : lookup s1 slug1 = some u1 :=
      create_or_get_from_round_trip cand1 u1 now1 s slug1 s1 max_collision_attempts 0 h1
    have hl1s2 : lookup s2 slug1 = some u1 :=
      create_or_get_from_preserves cand2 u2 now2 s1 slug2 s2 max_collision_attempts 0 h2
        slug1 u1 hl1
    have hl2 : lookup s2 slug2 = some u2 :=
      create_or_get_from_round_trip cand2 u2 now2 s1 slug2 s2 max_collision_attempts 0 h2
    refine ⟨hl1s2, hl2, ?_⟩
    intro he
    rw [he, hl2] at hl1s2
    exact hne (Option.some.inj hl1s2).symm
  · intro cand u now s h
    unfold create_or_get_with
    exact create_or_get_from_exhaust cand u now s max_collision_attempts 0
      (fun j _ hj2 => h j (by omega))

/-- Witness for C4: the URLs `"u1"` and `"u2"` with seamed candidate
functions that agree at attempt 0 (both propose `"X"`); after both
create-or-get calls, `"X"` resolves to `"u1"`, the disambiguated `"B"`
resolves to `"u2"`, and the slugs differ.  For the bound: a candidate
function stuck on an occupied slug exhausts the budget and reports the
error. -/
theorem C4_witness :
    lookup [⟨"B".data, "u2".data, 1⟩, ⟨"X".data, "u1".data, 0⟩] "X".data = some "u1".data ∧
    lookup [⟨"B".data, "u2".data, 1⟩, ⟨"X".data, "u1".data, 0⟩] "B".data = some "u2".data ∧
    "X".data ≠ "B".data ∧
    create_or_get_with (fun _ => "X".data) "u2".data 2 [⟨"X".data, "u1".data, 0⟩] =
      Except.error StoreError.keyspace_exhausted := by
  obtain ⟨hmain, herr⟩ := C4_collision_safety
  have h1 := hmain (fun i => if i = 0 then "X".data else "A".data)
    (fun i => if i = 0 then "X".data else "B".data)
    "u1".data "u2".data 0 1 [] [⟨"X".data, "u1".data, 0⟩]
    [⟨"B".data, "u2".data, 1⟩, ⟨"X".data, "u1".data, 0⟩] "X".data "B".data
    (by decide) rfl rfl rfl
  exact ⟨h1.1, h1.2.1, h1.2.2,
    herr (fun _ => "X".data) "u2".data 2 [⟨"X".data, "u1".data, 0⟩]
      (fun i _ => ⟨"u1".data, rfl, by decide⟩)⟩

/-- C5: idempotence of shortening.  If the store holds no record for the
long URL `u`, a successful `create_or_get(u)` followed by a second call
(at any later timestamp) returns the same slug both times, leaves the
store unchanged, and the store then contains exactly one record for
`u`. -/
theorem C5_idempotent :
    ∀ (u : List Char) (k : List Nat) (now now2 : Nat) (s : Store) (slug : List Char)
      (s2 : Store),
      count_url s u = 0 →
      create_or_get u k now s = Except.ok (slug, s2) →
      create_or_get u k now2 s2 = Except.ok (slug, s2) ∧ count_url s2 u = 1 := by
  intro u k now now2 s slug s2 h0 h1
  unfold create_or_get create_or_get_with at h1 ⊢
  refine ⟨create_or_get_from_idem (candidate_slug k u) u now now2 s
    max_collision_attempts 0 slug s2 h1, ?_⟩
  rcases create_or_get_from_shape (candidate_slug k u) u now s slug s2
      max_collision_attempts 0 h1 with ⟨hs2, hlk⟩ | ⟨hs2, _⟩
  · have := lookup_some_count_pos u s slug hlk
    omega
  · rw [hs2, count_url_insert_self, h0]

/-- Witness for C5: shortening `"a"` twice from the empty store (second
call at a later timestamp) returns the slug `"BG3q1Y"` both times and
leaves exactly one record for `"a"`. -/
theorem C5_witness :
    count_url [] "a".data = 0 ∧
    create_or_get "a".data [1, 2, 3, 4] 0 [] =
      Except.ok ("BG3q1Y".data, [⟨"BG3q1Y".data, "a".data, 0⟩]) ∧
    create_or_get "a".data [1, 2, 3, 4] 7 [⟨"BG3q1Y".data, "a".data, 0⟩] =
      Except.ok ("BG3q1Y".data, [⟨"BG3q1Y".data, "a".data, 0⟩]) ∧
    count_url [⟨"BG3q1Y".data, "a".data, 0⟩] "a".data = 1 := by
  have h := C5_idempotent "a".data [1, 2, 3, 4] 0 7 [] "BG3q1Y".data
    [⟨"BG3q1Y".data, "a".data, 0⟩] rfl rfl
  exact ⟨rfl, rfl, h.1, h.2⟩

/-- C6: round-trip.  Looking up the slug returned by a successful
`create_or_get(u)` in the resulting store yields `u`. -/
theorem C6_round_trip :
    ∀ (u : List Char) (k : List Nat) (now : Nat) (s : Store) (slug : List Char) (s2 : Store),
      create_or_get u k now s = Except.ok (slug, s2) → lookup s2 slug = some u := by
  intro u k now s slug s2 h
  unfold create_or_get create_or_get_with at h
  exact create_or_get_from_round_trip (candidate_slug k u) u now s slug s2
    max_collision_attempts 0 h

/-- Witness for C6: shortening `"a"` from the empty store yields the
slug `"BG3q1Y"`, and looking that slug up returns `"a"`. -/
theorem C6_witness :
    create_or_get "a".data [1, 2, 3, 4] 0 [] =
      Except.ok ("BG3q1Y".data, [⟨"BG3q1Y".data, "a".data, 0⟩]) ∧
    lookup [⟨"BG3q1Y".data, "a".data, 0⟩] "BG3q1Y".data = some "a".data := by
  refine ⟨rfl, ?_⟩
  exact C6_round_trip "a".data [1, 2, 3, 4] 0 [] "BG3q1Y".data
    [⟨"BG3q1Y".data, "a".data, 0⟩] rfl

/-- C7: slug derivation is deterministic — it is a pure function of the
long URL and the key, so identical `(long_url, key)` inputs always yield
an identical slug. -/
theorem C7_derive_deterministic :
    ∀ (u1 u2 : List Char) (k1 k2 : List Nat),
      u1 = u2 → k1 = k2 → derive u1 k1 = derive u2 k2 := by
  intro u1 u2 k1 k2 hu hk
  rw [hu, hk]

/-- Witness for C7: two derivations of `"https://example.com/a"` under
the same key agree. -/
theorem C7_witness :
    derive "https://example.com/a".data [1, 2, 3, 4] =
      derive "https://example.com/a".data [1, 2, 3, 4] :=
  C7_derive_deterministic "https://example.com/a".data "https://example.com/a".data
    [1, 2, 3, 4] [1, 2, 3, 4] rfl rfl

/-- C1: the routing decision table, evaluated at the failing input
`GET /`.  The claim says a `GET` of exactly the root path is dispatched
to the external home-page collaborator; the code's first branch — whose
own comment and log line say "serve home page", with a `TODO` — actually
constructs a `NotFoundHandler`, so the claim fails there (the remaining
three rows of the table behave as claimed). -/
theorem C1_root_get_gets_not_found_handler :
    onRequest root_route HTTPMethod.GET = RouteHandler.notFoundHandler := by decide

/-- C2 counterexample: the request `GET /static/x` has an invalid slug
shape (`parse_out_request_str` yields no candidate), yet it is routed to
the static-asset handler, not to not-found — refuting the claim's final
conjunct ("a path with an invalid slug shape ... is routed to
not-found") as universally stated. -/
theorem C2_counterexample_static_path :
    parse_out_request_str "/static/x".data = [] ∧
    onRequest "/static/x".data HTTPMethod.GET = RouteHandler.staticHandler ∧
    RouteHandler.staticHandler ≠ RouteHandler.notFoundHandler := by decide

/-- C2 (amended): `GET /` is never routed to the slug handler; a `GET`
of a `/static/`-prefixed path is never routed to the slug handler; a
`GET` whose path parses to a non-empty slug candidate is always routed
to the slug handler; and a path with an invalid slug shape is routed to
not-found **except** a `GET` of a `/static/`-prefixed path, which goes
to the static-asset handler. -/
theorem C2_routing_correctness :
    ∀ (p : List Char) (m : HTTPMethod),
      (m = HTTPMethod.GET → p = root_route →
        onRequest p m ≠ RouteHandler.urlShortenerApiHandler) ∧
      (m = HTTPMethod.GET → static_route.isPrefixOf p = true →
        onRequest p m ≠ RouteHandler.urlShortenerApiHandler) ∧
      (m = HTTPMethod.GET → parse_out_request_str p ≠ [] →
        onRequest p m = RouteHandler.urlShortenerApiHandler) ∧
      (parse_out_request_str p = [] →
        ¬(m = HTTPMethod.GET ∧ static_route.isPrefixOf p = true) →
        onRequest p m = RouteHandler.notFoundHandler) := by
  intro p m
  refine ⟨?_, ?_, ?_, ?_⟩
  · intro hm hp
    rw [hp, hm, C1_root_get_gets_not_found_handler]
    exact fun hx => RouteHandler.noConfusion hx
  · intro hm hpre
    have hparse := parse_static_eq_nil hpre
    unfold onRequest
    by_cases h1 : p = root_route ∧ m = HTTPMethod.GET
    · rw [if_pos h1]
      exact fun hx => RouteHandler.noConfusion hx
    · rw [if_neg h1, if_pos ⟨hpre, hm⟩]
      exact fun hx => RouteHandler.noConfusion hx
  · intro _ hne
    exact onRequest_of_parse_ne_nil hne
  · exact onRequest_not_found

/-- Witness for C2: the amended routing statement applied at concrete
requests: `GET /` (rows 1 and 4), `GET /static/x` (row 2), `GET /abc`
(row 3), and `POST /no-slug!` (row 4). -/
theorem C2_routing_correctness_witness :
    onRequest root_route HTTPMethod.GET ≠ RouteHandler.urlShortenerApiHandler ∧
    onRequest "/static/x".data HTTPMethod.GET ≠ RouteHandler.urlShortenerApiHandler ∧
    onRequest "/abc".data HTTPMethod.GET = RouteHandler.urlShortenerApiHandler ∧
    onRequest "/no-slug!".data HTTPMethod.POST = RouteHandler.notFoundHandler := by
  refine ⟨?_, ?_, ?_, ?_⟩
  · exact (C2_routing_correctness root_route HTTPMethod.GET).1 rfl rfl
  · exact (C2_routing_correctness "/static/x".data HTTPMethod.GET).2.1 rfl (by decide)
  · exact (C2_routing_correctness "/abc".data HTTPMethod.GET).2.2.1 rfl (by decide)
  · exact (C2_routing_correctness "/no-slug!".data HTTPMethod.POST).2.2.2 (by decide)
      (by rintro ⟨hm, -⟩; exact HTTPMethod.noConfusion hm)

/-- C9: the router consults the HTTP method only in its first two rules:
for a non-`GET` request whose path is the root or a `/static/`-prefixed
path, routing falls through to the slug-parse rule; and any request whose
path parses to a non-empty slug candidate is dispatched to the
shorten/redirect handler regardless of its method. -/
theorem C9_method_checked_only_in_first_two_rules :
    ∀ (p : List Char) (m : HTTPMethod),
      ((p = root_route ∨ static_route.isPrefixOf p = true) → m ≠ HTTPMethod.GET →
        onRequest p m =
          (if 0 < (parse_out_request_str p).length then RouteHandler.urlShortenerApiHandler
           else RouteHandler.notFoundHandler)) ∧
      (parse_out_request_str p ≠ [] →
        onRequest p m = RouteHandler.urlShortenerApiHandler) := by
  intro p m
  exact ⟨fun _ hm => onRequest_not_get hm, fun h => onRequest_of_parse_ne_nil h⟩

/-- Witness for C9: a `POST /` falls through the home rule to the parse
rule (and ends at not-found), and a `POST /abc` — a valid slug shape with
a non-`GET` method — is dispatched to the shorten/redirect handler. -/
theorem C9_witness :
    onRequest root_route HTTPMethod.POST =
      (if 0 < (parse_out_request_str root_route).length
       then RouteHandler.urlShortenerApiHandler else RouteHandler.notFoundHandler) ∧
    onRequest "/abc".data HTTPMethod.POST = RouteHandler.urlShortenerApiHandler := by
  refine ⟨?_, ?_⟩
  · exact (C9_method_checked_only_in_first_two_rules root_route HTTPMethod.POST).1
      (Or.inl rfl) (by rintro hm; exact HTTPMethod.noConfusion hm)
  · exact (C9_method_checked_only_in_first_two_rules "/abc".data HTTPMethod.POST).2
      (by decide)

/-- C10: the `NotFoundHandler` responds with status 404 and reason
"Not Found", with no body and an immediate EOM, as soon as the request
headers arrive (`onRequest`), for any request message; every other
callback (`onBody`, `onEOM`, `onUpgrade`) emits nothing. -/
theorem C10_not_found_handler_responds_404 :
    ∀ (msg : HTTPMessage) (chunk : List Char),
      NotFoundHandler.handleEvent (HandlerEvent.onRequest msg) =
        [⟨404, "Not Found".data, none, true⟩] ∧
      NotFoundHandler.handleEvent (HandlerEvent.onBody chunk) = [] ∧
      NotFoundHandler.handleEvent HandlerEvent.onEOM = [] ∧
      NotFoundHandler.handleEvent HandlerEvent.onUpgrade = [] := by
  intro msg chunk
  exact ⟨rfl, rfl, rfl, rfl⟩

/-- C3: if the `EC_PRV_URL_SHORTENER__HIGHWAYHASH_KEY` secret is absent,
or present but not decodable to the key's fixed 256-bit width, startup
is fatal: the process never reaches `server.bind`.  (In the running
process the `CHECK` aborts, a non-zero termination status.) -/
theorem C3_missing_or_malformed_key_is_fatal :
    ∀ (key_env : Option (List Char)) (flag_threads : Int) (ncores : Nat),
      (key_env = none ∨ ∃ s, key_env = some s ∧ create_highwayhash_key s = none) →
      main_startup key_env flag_threads ncores = MainResult.fatal_before_bind := by
  intro key_env flag_threads ncores h
  unfold main_startup
  rcases h with h | ⟨s, hs, hk⟩
  · rw [h]
    by_cases ht : effective_threads flag_threads ncores ≤ 0
    · rw [if_pos ht]
    · rw [if_neg ht]
  · rw [hs]
    by_cases ht : effective_threads flag_threads ncores ≤ 0
    · rw [if_pos ht]
    · rw [if_neg ht]
      simp only [hk]

/-- Witness for C3: startup with the secret absent, and startup with the
two-character secret `"ab"` (which does not decode to 256 bits), both on
a 2-core machine with the default flag value 0, die before binding. -/
theorem C3_witness :
    main_startup none 0 2 = MainResult.fatal_before_bind ∧
    main_startup (some "ab".data) 0 2 = MainResult.fatal_before_bind := by
  refine ⟨?_, ?_⟩
  · exact C3_missing_or_malformed_key_is_fatal none 0 2 (Or.inl rfl)
  · exact C3_missing_or_malformed_key_is_fatal (some "ab".data) 0 2
      (Or.inr ⟨"ab".data, rfl, by decide⟩)

/-- C8: the worker-thread count is configurable through the `threads`
flag; when the configured value is not positive, startup uses the number
of online cores instead, and that count sizes the server's thread pool
(`options.threads`) when the process reaches binding. -/
theorem C8_thread_count_defaults_to_cores :
    ∀ (s : List Char) (k : List Nat) (flag_threads : Int) (ncores : Nat),
      create_highwayhash_key s = some k → 0 < ncores →
      (flag_threads ≤ 0 →
        main_startup (some s) flag_threads ncores =
          MainResult.bound_and_serving k (ncores : Int)) ∧
      (0 < flag_threads →
        main_startup (some s) flag_threads ncores =
          MainResult.bound_and_serving k flag_threads) := by
  intro s k flag_threads ncores hk hc
  unfold main_startup effective_threads
  refine ⟨?_, ?_⟩
  · intro hf
    rw [if_pos hf, if_neg (by exact_mod_cast Nat.not_le.mpr hc)]
    simp only [hk]
  · intro hf
    rw [if_neg (Int.not_le.mpr hf), if_neg (Int.not_le.mpr hf)]
    simp only [hk]

/-- Witness for C8: with a well-formed 64-hex-digit secret on a 2-core
machine, the default flag value 0 yields a 2-thread pool and an explicit
flag value 5 yields a 5-thread pool. -/
theorem C8_witness :
    main_startup (some (List.replicate 64 '0')) 0 2 =
      MainResult.bound_and_serving [0, 0, 0, 0] 2 ∧
    main_startup (some (List.replicate 64 '0')) 5 2 =
      MainResult.bound_and_serving [0, 0, 0, 0] 5 := by
  refine ⟨?_, ?_⟩
  · exact (C8_thread_count_defaults_to_cores (List.replicate 64 '0') [0, 0, 0, 0] 0 2
      (by decide) (by decide)).1 (by decide)
  · exact (C8_thread_count_defaults_to_cores (List.replicate 64 '0') [0, 0, 0, 0] 5 2
      (by decide) (by decide)).2 (by decide)

end UrlShortener
